import Mathlib

/-!
Verification of the frame scheduler and render-submission pipeline of
`src/packages/core/src/Engine.ts` (class `Engine`).

The embedding is shallow: the mutable fields of the `Engine`, the active
`Scene` and the platform scheduling primitives (`requestAnimationFrame`,
`setTimeout`, and their cancellation) become explicit state records, and
each method becomes a state-transformer returning the new state together
with a trace of the observable calls it makes (lifecycle callbacks,
feature hooks, render hooks).  Collaborator classes that are not part of
the source excerpt (`Time`, `Camera`, `Scene` internals) are modelled
from the specification, and each such definition says so in its doc
comment.
-/

namespace Engine

/-- Modelled from the spec (the `Time` class from `./base` is not in the
source excerpt): `deltaTime` is the wall time elapsed between the two most
recent ticks, `elapsedTime` accumulates it, and both are mutated only by
`tick` and `reset`.  Wall-clock instants are natural numbers (ms). -/
structure Time where
  deltaTime : Nat
  elapsedTime : Nat
  lastTickTime : Nat
deriving DecidableEq, Repr

/-- Modelled from the spec: `tick()` advances `deltaTime` using the wall
time elapsed since the previous tick (or since `reset()`), and
accumulates `elapsedTime`. -/
def Time.tick (t : Time) (now : Nat) : Time :=
  { deltaTime := now - t.lastTickTime
    elapsedTime := t.elapsedTime + (now - t.lastTickTime)
    lastTickTime := now }

/-- Modelled from the spec: `reset()` zeroes elapsed accounting and takes
a fresh time reference point. -/
def Time.reset (_t : Time) (now : Nat) : Time :=
  { deltaTime := 0, elapsedTime := 0, lastTickTime := now }

/-- Modelled from the spec: an entity only contributes its derived
`isActiveInHierarchy` flag to the render pass. -/
structure Entity where
  isActiveInHierarchy : Bool
deriving DecidableEq, Repr

/-- Modelled from the spec: a camera has an integer `priority` (lower
renders first), an `enabled` flag and an owning entity.  `cid` stands for
the object identity a JavaScript camera reference has, so that two
cameras with equal priority remain distinguishable. -/
structure Camera where
  cid : Nat
  priority : Int
  enabled : Bool
  entity : Entity
deriving DecidableEq, Repr

/-- The slice of `Scene` state the `Engine` touches: `_activeCameras`
(sorted in place by `_render`) and the scene-wide shader data, which
`scene._updateShaderData()` refreshes once per frame (modelled as a
version counter since its contents are outside the excerpt). -/
structure Scene where
  activeCameras : List Camera
  shaderDataVersion : Nat
deriving DecidableEq, Repr

/-- One observable call made during `Engine.update()` / `Engine._render()`,
in program order. -/
inductive FrameEvent where
  | tick
  | resetRenderElementPool
  | resetSpriteElementPool
  | preTickHook
  | scriptStart
  | scriptUpdate (dt : Nat)
  | animationUpdate (dt : Nat)
  | lateUpdate (dt : Nat)
  | rendererUpdate (dt : Nat)
  | updateShaderData
  | beginRender (c : Camera)
  | preRenderHook (c : Camera)
  | renderCamera (c : Camera)
  | postRenderHook (c : Camera)
  | endRender (c : Camera)
  | restRenderElementPool
  | noActiveCameraLog
  | componentDestroySweep
  | postTickHook
deriving DecidableEq, Repr

/-- `cameras.sort((camera1, camera2) => camera1.priority - camera2.priority)`
(source line 296): JavaScript `Array.prototype.sort` is a stable sort, and
this comparator orders ascending by `priority`. -/
def sortCameras (cs : List Camera) : List Camera :=
  cs.mergeSort (fun a b => a.priority ≤ b.priority)

/-- The camera-bracketing calls issued inside the loop of `_render`
(source lines 297-307): begin-render, the scene pre-render feature hook,
`camera.render()`, the post-render feature hook, end-render — all guarded
by `camera.enabled && cameraEntity.isActiveInHierarchy`. -/
def renderCameraEvents (c : Camera) : List FrameEvent :=
  if c.enabled && c.entity.isActiveInHierarchy then
    [.beginRender c, .preRenderHook c, .renderCamera c,
     .postRenderHook c, .endRender c]
  else []

/-- `Engine._render(scene)` (source lines 285-312).  `dt` is the value of
`this.time.deltaTime` at the call, read for `callRendererOnUpdate`.
Returns the scene as the method leaves it and the trace of calls. -/
def render (dt : Nat) (scene : Scene) : Scene × List FrameEvent :=
  let evs := [FrameEvent.rendererUpdate dt, FrameEvent.updateShaderData]
  let scene' : Scene :=
    { scene with shaderDataVersion := scene.shaderDataVersion + 1 }
  if scene'.activeCameras.length > 0 then
    let cams := sortCameras scene'.activeCameras
    ({ scene' with activeCameras := cams },
     evs ++ cams.flatMap renderCameraEvents ++ [.restRenderElementPool])
  else
    (scene', evs ++ [.noActiveCameraLog])

/-- `Engine.update()` (source lines 200-224).  The active scene may be
null (`Option`).  `now` is the wall-clock instant `time.tick()` observes.
Note the source captures `deltaTime` (line 202) BEFORE `time.tick()`
(line 204), while `_render` re-reads `this.time.deltaTime` after the
tick. -/
def update (scene : Option Scene) (t : Time) (now : Nat) :
    Option Scene × Time × List FrameEvent :=
  let deltaTime := t.deltaTime
  let t' := t.tick now
  let evs := [FrameEvent.tick, FrameEvent.resetRenderElementPool,
              FrameEvent.resetSpriteElementPool, FrameEvent.preTickHook]
  match scene with
  | some s =>
      let evs := evs ++ [FrameEvent.scriptStart,
                         FrameEvent.scriptUpdate deltaTime,
                         FrameEvent.animationUpdate deltaTime,
                         FrameEvent.lateUpdate deltaTime]
      let pr := render t'.deltaTime s
      (some pr.1, t',
       evs ++ pr.2 ++ [.componentDestroySweep, .postTickHook])
  | none =>
      (none, t', evs ++ [.componentDestroySweep, .postTickHook])

/-- The scheduling-relevant fields of the `Engine` together with the
browser's callback queues.  `rafPending` / `timeoutPending` hold the ids
of armed `requestAnimationFrame` / `setTimeout` callbacks (every callback
this program arms is `this._animate`).  `frames` is a ghost counter of
`update()` invocations (logical frames) and `resets` a ghost counter of
`time.reset()` calls; both only observe, never steer, the control
flow. -/
structure SchedState where
  isPaused : Bool
  requestId : Option Nat
  timeoutId : Option Nat
  vSyncCount : Nat
  vSyncCounter : Nat
  time : Time
  resets : Nat
  frames : Nat
  rafPending : List Nat
  timeoutPending : List Nat
  nextCbId : Nat
deriving DecidableEq, Repr

/-- Platform `requestAnimationFrame(cb)`: arms a callback under a fresh
id and returns that id. -/
def raf (s : SchedState) : Nat × SchedState :=
  (s.nextCbId,
   { s with rafPending := s.rafPending ++ [s.nextCbId],
            nextCbId := s.nextCbId + 1 })

/-- Platform `cancelAnimationFrame(id)`: disarms the callback with that
id if it is still pending; passing `undefined` (`none`) is a no-op. -/
def cancelRaf (s : SchedState) (id : Option Nat) : SchedState :=
  match id with
  | none => s
  | some i => { s with rafPending := s.rafPending.filter (fun j => j ≠ i) }

/-- Platform `window.setTimeout(cb, ms)`: arms a timer callback under a
fresh id and returns that id. -/
def setTimeout (s : SchedState) : Nat × SchedState :=
  (s.nextCbId,
   { s with timeoutPending := s.timeoutPending ++ [s.nextCbId],
            nextCbId := s.nextCbId + 1 })

/-- Platform `clearTimeout(id)`: disarms a pending timer; `undefined`
(`none`) is a no-op. -/
def clearTimeout (s : SchedState) (id : Option Nat) : SchedState :=
  match id with
  | none => s
  | some i =>
      { s with timeoutPending := s.timeoutPending.filter (fun j => j ≠ i) }

/-- `Engine.pause()` (source lines 181-185): set `_isPaused`, then
`cancelAnimationFrame(this._requestId)` and
`clearTimeout(this._timeoutId)`. -/
def pause (s : SchedState) : SchedState :=
  let s1 := { s with isPaused := true }
  let s2 := cancelRaf s1 s1.requestId
  clearTimeout s2 s2.timeoutId

/-- `Engine.resume()` (source lines 190-195): early-return when not
paused; otherwise clear `_isPaused`, `time.reset()`, and call
`requestAnimationFrame(this._animate)` — whose returned id the source
discards instead of storing it in `this._requestId`. -/
def resume (s : SchedState) (now : Nat) : SchedState :=
  if !s.isPaused then s
  else
    let s1 := { s with isPaused := false,
                       time := s.time.reset now,
                       resets := s.resets + 1 }
    (raf s1).2

/-- One invocation of the `Engine._animate` callback (source lines
57-68).  In vsync mode it re-arms on the refresh signal, storing the new
id in `_requestId`, and runs `update()` only when
`this._vSyncCounter++ % this._vSyncCount === 0` (the test uses the value
before the post-increment; after an update the counter is reset to 1).
In timer mode it re-arms a timeout, storing the id in `_timeoutId`, and
always runs `update()`.  Running `update()` is recorded by bumping the
ghost counter `frames`. -/
def animate (s : SchedState) : SchedState :=
  if s.vSyncCount ≠ 0 then
    let (id, s1) := raf s
    let s2 := { s1 with requestId := some id }
    if s2.vSyncCounter % s2.vSyncCount = 0 then
      { s2 with frames := s2.frames + 1, vSyncCounter := 1 }
    else
      { s2 with vSyncCounter := s2.vSyncCounter + 1 }
  else
    let (id, s1) := setTimeout s
    let s2 := { s1 with timeoutId := some id }
    { s2 with frames := s2.frames + 1 }

/-- One display-refresh signal: the browser runs every currently armed
`requestAnimationFrame` callback once (all of them are `_animate`);
callbacks armed while handling this signal run only at a later
signal. -/
def refreshSignal (s : SchedState) : SchedState :=
  let fired := s.rafPending
  let s1 := { s with rafPending := [] }
  fired.foldl (fun acc _ => animate acc) s1

/-- The engine's scheduling state as built by the constructor
(`_isPaused = true`, `_vSyncCounter = 1`, `_requestId` and `_timeoutId`
undefined, nothing armed), with `_vSyncCount` already configured to `v`
through the clamping setter. -/
def initState (v : Nat) : SchedState :=
  { isPaused := true, requestId := none, timeoutId := none,
    vSyncCount := v, vSyncCounter := 1,
    time := { deltaTime := 0, elapsedTime := 0, lastTickTime := 0 },
    resets := 0, frames := 0,
    rafPending := [], timeoutPending := [], nextCbId := 0 }

/-- The `_shaderProgramPools` sparse array (source line 43).  A slot
holds `none` where the JavaScript array holds an undefined hole; a
created `ShaderProgramPool` instance is represented by the identity
number `nextPool` it was allocated with, so that distinct `new`
allocations are distinguishable. -/
structure ShaderProgramPools where
  pools : List (Option Nat)
  nextPool : Nat
deriving DecidableEq, Repr

/-- JavaScript `arr[i] = v` on an array: in-bounds writes set the slot,
out-of-bounds writes extend the array with holes up to index `i`. -/
def setSlot (l : List (Option Nat)) (i : Nat) (v : Option Nat) :
    List (Option Nat) :=
  if i < l.length then l.set i v
  else l ++ List.replicate (i - l.length) none ++ [v]

/-- `Engine._getShaderProgramPool(shader)` (source lines 271-283) with
`index = shader._shaderId`: return the cached pool if the slot is
truthy; otherwise, when `index + 1 < shaderProgramPools.length`, assign
`shaderProgramPools.length = index + 1` (which truncates the array),
then store and return a fresh pool at `index`. -/
def getShaderProgramPool (r : ShaderProgramPools) (shaderId : Nat) :
    Nat × ShaderProgramPools :=
  match r.pools.getD shaderId none with
  | some pool => (pool, r)
  | none =>
      let len := shaderId + 1
      let pools1 := if len < r.pools.length then r.pools.take len else r.pools
      (r.nextPool,
       { pools := setSlot pools1 shaderId (some r.nextPool),
         nextPool := r.nextPool + 1 })

/-- The camera a begin/pre/render/post/end event is addressed to, if
any. -/
def cameraOf : FrameEvent → Option Camera
  | .beginRender c => some c
  | .preRenderHook c => some c
  | .renderCamera c => some c
  | .postRenderHook c => some c
  | .endRender c => some c
  | _ => none

/-- The scheduler state reached from `resume()` on a fresh engine with
`vSyncCount = v ≥ 1` after `n` refresh signals: running, exactly one
armed refresh callback, `_vSyncCounter = n % v + 1`, and `n / v`
executed logical frames. -/
def runState (v n : Nat) : SchedState :=
  { isPaused := false,
    requestId := if n = 0 then none else some n,
    timeoutId := none,
    vSyncCount := v,
    vSyncCounter := n % v + 1,
    time := { deltaTime := 0, elapsedTime := 0, lastTickTime := 0 },
    resets := 1,
    frames := n / v,
    rafPending := [n],
    timeoutPending := [],
    nextCbId := n + 1 }

/-- The observable calls `Engine.destroy()` makes, in program order. -/
inductive DestroyEvent where
  | shutdownEvent
  | shutdownHook
  | sceneDestroy
  | resourceGC
  | componentSweep
  | removeAllListeners
deriving DecidableEq, Repr

/-- The `Engine` fields `destroy()` touches.  A `…Alive := false` field
models a field the source nulls out; `sceneManagerAlive` is the
`if (this._sceneManager)` guard. -/
structure EngineState where
  sched : SchedState
  sceneManagerAlive : Bool
  resourceManagerAlive : Bool
  canvasAlive : Bool
  timeAlive : Bool
  animateAlive : Bool
  features : List Nat
  listeners : List Nat
deriving DecidableEq, Repr

/-- `Engine.destroy()` (source lines 239-266): guarded by
`if (this._sceneManager)`, it triggers the shutdown event and shutdown
feature hooks, calls `pause()`, nulls `_animate`, destroys the active
scene, runs resource gc and the final component-destroy sweep, nulls
`_sceneManager`, `_resourceManager`, `_canvas` and `_time`, clears
`features`, and removes all event listeners.  When the guard fails
(already destroyed) nothing happens. -/
def destroy (e : EngineState) : EngineState × List DestroyEvent :=
  if e.sceneManagerAlive then
    ({ e with sched := pause e.sched,
              animateAlive := false,
              sceneManagerAlive := false,
              resourceManagerAlive := false,
              canvasAlive := false,
              timeAlive := false,
              features := [],
              listeners := [] },
     [.shutdownEvent, .shutdownHook, .sceneDestroy, .resourceGC,
      .componentSweep, .removeAllListeners])
  else (e, [])

end Engine

namespace Engine

/-- The comparator of `_render` is transitive. -/
theorem cameraLe_trans (a b c : Camera)
    (hab : decide (a.priority ≤ b.priority) = true)
    (hbc : decide (b.priority ≤ c.priority) = true) :
    decide (a.priority ≤ c.priority) = true := by
  simp only [decide_eq_true_eq] at hab hbc ⊢
  exact le_trans hab hbc

/-- The comparator of `_render` is total. -/
theorem cameraLe_total (a b : Camera) :
    (decide (a.priority ≤ b.priority) || decide (b.priority ≤ a.priority))
      = true := by
  simpa using Int.le_total a.priority b.priority

/-- `sortCameras` orders ascending by `priority`. -/
theorem sortCameras_sorted (cs : List Camera) :
    (sortCameras cs).Pairwise (fun a b => a.priority ≤ b.priority) := by
  unfold sortCameras
  have h : (cs.mergeSort fun a b => a.priority ≤ b.priority).Pairwise
      (fun a b => decide (a.priority ≤ b.priority) = true) :=
    List.sorted_mergeSort cameraLe_trans cameraLe_total cs
  exact h.imp (fun hab => by simpa using hab)

/-- `sortCameras` only reorders: it returns a permutation of its input. -/
theorem sortCameras_perm (cs : List Camera) : (sortCameras cs).Perm cs :=
  List.mergeSort_perm cs _

/-- Sorting an already sorted camera list changes nothing, so repeated
render passes over the same list keep equal-priority cameras in the same
relative order (stability across passes). -/
theorem sortCameras_idem (cs : List Camera) :
    sortCameras (sortCameras cs) = sortCameras cs := by
  unfold sortCameras
  exact List.mergeSort_of_sorted
    (List.sorted_mergeSort cameraLe_trans cameraLe_total cs)

/-- With at least one active camera, `_render` emits the renderer-update
and shader-data calls, then the per-camera bracketed calls in
`sortCameras` order, then the end-of-pass pool trim. -/
theorem render_trace_pos (dt : Nat) (s : Scene)
    (hl : 0 < s.activeCameras.length) :
    (render dt s).2
      = [FrameEvent.rendererUpdate dt, FrameEvent.updateShaderData]
        ++ (sortCameras s.activeCameras).flatMap renderCameraEvents
        ++ [FrameEvent.restRenderElementPool] := by
  simp [render, hl]

/-- With no active camera, `_render` only updates renderers and shader
data and logs a diagnostic. -/
theorem render_trace_nil (dt : Nat) (s : Scene)
    (hl : ¬ 0 < s.activeCameras.length) :
    (render dt s).2
      = [FrameEvent.rendererUpdate dt, FrameEvent.updateShaderData,
         FrameEvent.noActiveCameraLog] := by
  simp [render, hl]

/-- With at least one active camera, `_render` leaves the scene with its
camera list sorted in place and its shader data refreshed. -/
theorem render_scene_pos (dt : Nat) (s : Scene)
    (hl : 0 < s.activeCameras.length) :
    (render dt s).1
      = { activeCameras := sortCameras s.activeCameras,
          shaderDataVersion := s.shaderDataVersion + 1 } := by
  simp [render, hl]

/-- Every event in a camera's bracket carries that camera, and a bracket
is only emitted when the camera passes the enabled/active check. -/
theorem mem_renderCameraEvents (c' : Camera) (e : FrameEvent)
    (hmem : e ∈ renderCameraEvents c') :
    (c'.enabled && c'.entity.isActiveInHierarchy) = true
      ∧ cameraOf e = some c' := by
  unfold renderCameraEvents at hmem
  by_cases hg : (c'.enabled && c'.entity.isActiveInHierarchy) = true
  · rw [if_pos hg] at hmem
    simp only [List.mem_cons, List.not_mem_nil, or_false] at hmem
    rcases hmem with rfl | rfl | rfl | rfl | rfl <;> exact ⟨hg, rfl⟩
  · rw [if_neg hg] at hmem
    cases hmem

/-- C1: the claim states that `_getShaderProgramPool(i)` followed by
`_getShaderProgramPool(j)` with `j < i` preserves the pool created at
index `i`, and that a later get with `i` returns that same instance.  The
code refutes this: on a fresh registry, get 5 populates slot 5, get 2
truncates the array to length 3 (dropping the populated slot 5), and a
later get 5 returns a freshly created pool instead of the original. -/
theorem c1_get_truncation_drops_populated_pool :
    (getShaderProgramPool ⟨[], 0⟩ 5).2.pools.getD 5 none = some 0 ∧
    (getShaderProgramPool (getShaderProgramPool ⟨[], 0⟩ 5).2 2).2.pools.getD
      5 none = none ∧
    (getShaderProgramPool
        (getShaderProgramPool (getShaderProgramPool ⟨[], 0⟩ 5).2 2).2 5).1
      ≠ (getShaderProgramPool ⟨[], 0⟩ 5).1 := by
  decide

/-- C2 counterexample: the claim states the clock is advanced first and
the deltaTime captured from that advance is passed to the lifecycle
callbacks.  With a clock whose previous delta is 5 and a tick that
measures 7 elapsed ms, the start/update/animation/late-update callbacks
receive 5, not the 7 produced by this frame's advance. -/
theorem c2_counterexample :
    (Time.tick ⟨5, 50, 100⟩ 107).deltaTime = 7 ∧
    FrameEvent.scriptUpdate 5 ∈ (update (some (Scene.mk [] 0)) ⟨5, 50, 100⟩ 107).2.2 ∧
    FrameEvent.scriptUpdate 7 ∉ (update (some (Scene.mk [] 0)) ⟨5, 50, 100⟩ 107).2.2 ∧
    FrameEvent.animationUpdate 7 ∉ (update (some (Scene.mk [] 0)) ⟨5, 50, 100⟩ 107).2.2 ∧
    FrameEvent.lateUpdate 7 ∉ (update (some (Scene.mk [] 0)) ⟨5, 50, 100⟩ 107).2.2 := by
  decide

/-- C2 (amended): `update()` captures the clock's `deltaTime` BEFORE
advancing the clock, so the start/update/animation-update/late-update
callbacks receive the previous frame's delta (`t.deltaTime`), while the
clock is advanced to `t.tick now` and the render pass reads the
post-advance delta. -/
theorem c2_amended_stale_delta (s : Scene) (t : Time) (now : Nat) :
    update (some s) t now
      = (some (render (Time.tick t now).deltaTime s).1, Time.tick t now,
         [FrameEvent.tick, FrameEvent.resetRenderElementPool,
          FrameEvent.resetSpriteElementPool, FrameEvent.preTickHook,
          FrameEvent.scriptStart, FrameEvent.scriptUpdate t.deltaTime,
          FrameEvent.animationUpdate t.deltaTime,
          FrameEvent.lateUpdate t.deltaTime]
         ++ (render (Time.tick t now).deltaTime s).2
         ++ [FrameEvent.componentDestroySweep, FrameEvent.postTickHook]) :=
  rfl

/-- C3: the claim states that after `pause()` with no later `resume()` no
further logical frame executes, even for a wake-up armed by the most
recent `resume()`.  The code refutes this: `resume()` does not store the
id of the `requestAnimationFrame` callback it arms, so the `pause()`
that follows cancels nothing, the armed callback fires on the next
refresh signal while the engine is paused, and (with `vSyncCount = 1`)
executes a logical frame. -/
theorem c3_frame_fires_after_pause :
    (pause (resume (initState 1) 0)).isPaused = true ∧
    (pause (resume (initState 1) 0)).frames = 0 ∧
    (refreshSignal (pause (resume (initState 1) 0))).frames = 1 := by
  decide

/-- C7: calling `destroy()` on an already-destroyed engine is a no-op:
the state is untouched and no shutdown event or shutdown feature hook is
emitted a second time. -/
theorem c7_destroy_twice_noop (e : EngineState) :
    destroy (destroy e).1 = ((destroy e).1, []) := by
  by_cases h : e.sceneManagerAlive <;> simp [destroy, h]

/-- C8: when the active scene is null, `update()` performs exactly the
clock tick, the two pool resets, the pre-tick hook, the deferred
component-destroy sweep and the post-tick hook — no lifecycle callbacks
and no render pass. -/
theorem c8_null_scene_skips_lifecycle (t : Time) (now : Nat) :
    update none t now
      = (none, Time.tick t now,
         [FrameEvent.tick, FrameEvent.resetRenderElementPool,
          FrameEvent.resetSpriteElementPool, FrameEvent.preTickHook,
          FrameEvent.componentDestroySweep, FrameEvent.postTickHook]) :=
  rfl

/-- C9: `resume()` is idempotent — a second call without an intervening
`pause()` returns the state unchanged, and a single call from a paused
state arms exactly one new wake-up and resets the clock exactly once. -/
theorem c9_resume_idempotent (s : SchedState) (n1 n2 : Nat)
    (h : s.isPaused = true) :
    resume (resume s n1) n2 = resume s n1 ∧
    (resume s n1).isPaused = false ∧
    (resume s n1).rafPending.length = s.rafPending.length + 1 ∧
    (resume s n1).resets = s.resets + 1 := by
  simp [resume, h, raf]

/-- C5: with a non-empty camera list, the render pass processes the
cameras in the order produced by the stable ascending-priority sort:
the per-camera calls appear in `sortCameras` order, that order is
ascending in `priority`, it is a permutation of the stored list, and
sorting is idempotent, so repeated passes over the same unmodified list
keep equal-priority cameras in the same relative order. -/
theorem c5_render_priority_order (dt : Nat) (s : Scene)
    (h : s.activeCameras ≠ []) :
    (render dt s).2
      = [FrameEvent.rendererUpdate dt, FrameEvent.updateShaderData]
        ++ (sortCameras s.activeCameras).flatMap renderCameraEvents
        ++ [FrameEvent.restRenderElementPool] ∧
    (sortCameras s.activeCameras).Pairwise
      (fun a b => a.priority ≤ b.priority) ∧
    (sortCameras s.activeCameras).Perm s.activeCameras ∧
    sortCameras (sortCameras s.activeCameras) = sortCameras s.activeCameras := by
  exact ⟨render_trace_pos dt s (List.length_pos.mpr h),
         sortCameras_sorted _, sortCameras_perm _, sortCameras_idem _⟩

unseal List.merge List.mergeSort

/-- C5 witness: cameras with priorities `[3, 1, 2]` render in priority
order `[1, 2, 3]`. -/
theorem c5_render_priority_order_witness :
    ([⟨0, 3, true, ⟨true⟩⟩, ⟨1, 1, true, ⟨true⟩⟩,
      ⟨2, 2, true, ⟨true⟩⟩] : List Camera) ≠ [] ∧
    ((render 4 (Scene.mk [⟨0, 3, true, ⟨true⟩⟩, ⟨1, 1, true, ⟨true⟩⟩,
        ⟨2, 2, true, ⟨true⟩⟩] 0)).2
      = [FrameEvent.rendererUpdate 4, FrameEvent.updateShaderData]
        ++ (sortCameras [⟨0, 3, true, ⟨true⟩⟩, ⟨1, 1, true, ⟨true⟩⟩,
            ⟨2, 2, true, ⟨true⟩⟩]).flatMap renderCameraEvents
        ++ [FrameEvent.restRenderElementPool] ∧
     (sortCameras [⟨0, 3, true, ⟨true⟩⟩, ⟨1, 1, true, ⟨true⟩⟩,
        ⟨2, 2, true, ⟨true⟩⟩]).Pairwise
       (fun a b => a.priority ≤ b.priority) ∧
     (sortCameras [⟨0, 3, true, ⟨true⟩⟩, ⟨1, 1, true, ⟨true⟩⟩,
        ⟨2, 2, true, ⟨true⟩⟩]).Perm
       [⟨0, 3, true, ⟨true⟩⟩, ⟨1, 1, true, ⟨true⟩⟩, ⟨2, 2, true, ⟨true⟩⟩] ∧
     sortCameras (sortCameras [⟨0, 3, true, ⟨true⟩⟩, ⟨1, 1, true, ⟨true⟩⟩,
        ⟨2, 2, true, ⟨true⟩⟩])
       = sortCameras [⟨0, 3, true, ⟨true⟩⟩, ⟨1, 1, true, ⟨true⟩⟩,
          ⟨2, 2, true, ⟨true⟩⟩]) ∧
    (sortCameras [⟨0, 3, true, ⟨true⟩⟩, ⟨1, 1, true, ⟨true⟩⟩,
        ⟨2, 2, true, ⟨true⟩⟩]).map Camera.priority = [1, 2, 3] :=
  ⟨by decide,
   c5_render_priority_order 4 (Scene.mk [⟨0, 3, true, ⟨true⟩⟩,
     ⟨1, 1, true, ⟨true⟩⟩, ⟨2, 2, true, ⟨true⟩⟩] 0) (by decide),
   by decide⟩

/-- C6: a camera that is disabled or whose entity is inactive in the
hierarchy receives no begin-render, pre-render, render, post-render or
end-render call in the pass: the render trace contains no event
addressed to it. -/
theorem c6_disabled_camera_no_hooks (dt : Nat) (s : Scene) (c : Camera)
    (h : c.enabled = false ∨ c.entity.isActiveInHierarchy = false) :
    (render dt s).2.filter (fun e => cameraOf e == some c) = [] := by
  have hguard : (c.enabled && c.entity.isActiveInHierarchy) ≠ true := by
    rcases h with h | h <;> simp [h]
  rw [List.filter_eq_nil_iff]
  intro e he hpe
  have hce : cameraOf e = some c := by simpa using hpe
  by_cases hl : 0 < s.activeCameras.length
  · rw [render_trace_pos dt s hl] at he
    simp only [List.mem_append, List.mem_cons, List.not_mem_nil, or_false,
      List.mem_flatMap] at he
    rcases he with (he | he) | he
    · rcases he with rfl | rfl <;> simp [cameraOf] at hce
    · obtain ⟨c', _, hmem⟩ := he
      obtain ⟨hg, hcam⟩ := mem_renderCameraEvents c' e hmem
      rw [hcam] at hce
      obtain rfl := Option.some.inj hce
      exact hguard hg
    · subst he
      simp [cameraOf] at hce
  · rw [render_trace_nil dt s hl] at he
    simp only [List.mem_cons, List.not_mem_nil, or_false] at he
    rcases he with rfl | rfl | rfl <;> simp [cameraOf] at hce

/-- C6 witness: in a two-camera scene, the disabled camera gets no
render-pass call addressed to it. -/
theorem c6_disabled_camera_no_hooks_witness :
    ((⟨1, 0, false, ⟨true⟩⟩ : Camera).enabled = false ∨
     (⟨1, 0, false, ⟨true⟩⟩ : Camera).entity.isActiveInHierarchy = false) ∧
    (render 1 (Scene.mk [⟨0, 5, true, ⟨true⟩⟩, ⟨1, 0, false, ⟨true⟩⟩] 0)).2.filter
      (fun e => cameraOf e == some ⟨1, 0, false, ⟨true⟩⟩) = [] :=
  ⟨by decide,
   c6_disabled_camera_no_hooks 1
     (Scene.mk [⟨0, 5, true, ⟨true⟩⟩, ⟨1, 0, false, ⟨true⟩⟩] 0)
     ⟨1, 0, false, ⟨true⟩⟩ (by decide)⟩

/-- C10: with a non-empty camera list, `_render` sorts the scene's
stored active-camera list in place: the scene afterwards holds exactly
the priority-sorted permutation of its previous list (not restored), and
the sort step changes nothing else — the only other field the pass
touches is the shader data, refreshed by `_updateShaderData` before the
sort. -/
theorem c10_render_sorts_in_place (dt : Nat) (s : Scene)
    (h : s.activeCameras ≠ []) :
    (render dt s).1
      = { activeCameras := sortCameras s.activeCameras,
          shaderDataVersion := s.shaderDataVersion + 1 } ∧
    (render dt s).1.activeCameras.Perm s.activeCameras := by
  have hl : 0 < s.activeCameras.length := List.length_pos.mpr h
  refine ⟨render_scene_pos dt s hl, ?_⟩
  rw [render_scene_pos dt s hl]
  exact sortCameras_perm _

/-- C10 witness: a scene whose cameras are stored out of priority order
leaves `_render` with its stored list permanently reordered. -/
theorem c10_render_sorts_in_place_witness :
    ([⟨0, 9, true, ⟨true⟩⟩, ⟨1, 1, true, ⟨true⟩⟩] : List Camera) ≠ [] ∧
    ((render 3 (Scene.mk [⟨0, 9, true, ⟨true⟩⟩, ⟨1, 1, true, ⟨true⟩⟩] 0)).1
      = { activeCameras := sortCameras [⟨0, 9, true, ⟨true⟩⟩,
            ⟨1, 1, true, ⟨true⟩⟩],
          shaderDataVersion := 0 + 1 } ∧
     (render 3 (Scene.mk [⟨0, 9, true, ⟨true⟩⟩,
        ⟨1, 1, true, ⟨true⟩⟩] 0)).1.activeCameras.Perm
       [⟨0, 9, true, ⟨true⟩⟩, ⟨1, 1, true, ⟨true⟩⟩]) ∧
    (render 3 (Scene.mk [⟨0, 9, true, ⟨true⟩⟩,
       ⟨1, 1, true, ⟨true⟩⟩] 0)).1.activeCameras
      ≠ [⟨0, 9, true, ⟨true⟩⟩, ⟨1, 1, true, ⟨true⟩⟩] :=
  ⟨by decide,
   c10_render_sorts_in_place 3
     (Scene.mk [⟨0, 9, true, ⟨true⟩⟩, ⟨1, 1, true, ⟨true⟩⟩] 0) (by decide),
   by decide⟩

/-- C9 witness: the fresh engine is paused, and resuming it twice equals
resuming it once, with one armed wake-up and one clock reset. -/
theorem c9_resume_idempotent_witness :
    (initState 1).isPaused = true ∧
    (resume (resume (initState 1) 3) 7 = resume (initState 1) 3 ∧
     (resume (initState 1) 3).isPaused = false ∧
     (resume (initState 1) 3).rafPending.length
       = (initState 1).rafPending.length + 1 ∧
     (resume (initState 1) 3).resets = (initState 1).resets + 1) :=
  ⟨by decide, c9_resume_idempotent (initState 1) 3 7 (by decide)⟩

/-- `resume()` on the fresh engine reaches `runState v 0`. -/
theorem runState_zero (v : Nat) : resume (initState v) 0 = runState v 0 := by
  simp [resume, initState, runState, raf, Time.reset]

/-- Invariant step: each refresh signal fires the single armed
`_animate` callback, which re-arms and advances the vsync counter,
executing `update()` exactly at the multiples of `v`. -/
theorem refreshSignal_runState (v n : Nat) (hv : 1 ≤ v) :
    refreshSignal (runState v n) = runState v (n + 1) := by
  have hv0 : v ≠ 0 := by omega
  have hsplit : n + 1 = (n % v + 1) + v * (n / v) := by
    conv_lhs => rw [← Nat.mod_add_div n v]
    exact Nat.add_right_comm _ _ _
  have hkey : (n + 1) % v = (n % v + 1) % v := by
    rw [hsplit, Nat.add_mul_mod_self_left]
  by_cases hA : (n % v + 1) % v = 0
  · have hmod : (n + 1) % v = 0 := by rw [hkey]; exact hA
    have hdvd : v ∣ (n + 1) := Nat.dvd_of_mod_eq_zero hmod
    have hdiv : (n + 1) / v = n / v + 1 := by
      rw [Nat.succ_div, if_pos hdvd]
    simp [refreshSignal, animate, raf, runState, hv0, hA, hmod, hdiv]
  · have hmod : (n + 1) % v = n % v + 1 := by
      rw [hkey]
      apply Nat.mod_eq_of_lt
      have h1 : n % v < v := Nat.mod_lt _ (by omega)
      rcases Nat.lt_or_ge (n % v + 1) v with h | h
      · exact h
      · exfalso
        apply hA
        have hEq : n % v + 1 = v := by omega
        rw [hEq, Nat.mod_self]
    have hdvd : ¬ v ∣ (n + 1) := by
      intro hd
      rw [Nat.dvd_iff_mod_eq_zero] at hd
      omega
    have hdiv : (n + 1) / v = n / v := by
      rw [Nat.succ_div, if_neg hdvd]
      omega
    simp [refreshSignal, animate, raf, runState, hv0, hA, hmod, hdiv]

/-- After `n` refresh signals the running engine is exactly in
`runState v n`. -/
theorem iterate_refreshSignal_runState (v n : Nat) (hv : 1 ≤ v) :
    refreshSignal^[n] (resume (initState v) 0) = runState v n := by
  induction n with
  | zero => simpa using runState_zero v
  | succ n ih =>
      rw [Function.iterate_succ_apply', ih, refreshSignal_runState v n hv]

/-- C4: with `vSyncCount = v ≥ 1` and the engine running, `n` refresh
signals execute exactly `n / v` logical frames; the `n + 1`-st signal
executes a frame exactly when `n + 1` is a multiple of `v`; and every
window of `v` consecutive signals executes exactly one frame. -/
theorem c4_vsync_frame_gating (v n : Nat) (hv : 1 ≤ v) :
    (refreshSignal^[n] (resume (initState v) 0)).frames = n / v ∧
    ((refreshSignal^[n + 1] (resume (initState v) 0)).frames
       = (refreshSignal^[n] (resume (initState v) 0)).frames + 1
     ↔ v ∣ (n + 1)) ∧
    (refreshSignal^[n + v] (resume (initState v) 0)).frames
      = (refreshSignal^[n] (resume (initState v) 0)).frames + 1 := by
  rw [iterate_refreshSignal_runState v n hv,
      iterate_refreshSignal_runState v (n + 1) hv,
      iterate_refreshSignal_runState v (n + v) hv]
  simp only [runState]
  refine ⟨by trivial, ?_, ?_⟩
  · rw [Nat.succ_div]
    by_cases hd : v ∣ (n + 1)
    · simp [hd]
    · simp only [hd, if_false, iff_false, Nat.add_zero]
      omega
  · exact Nat.add_div_right n hv

/-- C4 witness: with `vSyncCount = 2`, three signals execute one frame,
the fourth signal executes a frame (4 is a multiple of 2), and the two
signals after the third add exactly one frame. -/
theorem c4_vsync_frame_gating_witness :
    1 ≤ 2 ∧
    ((refreshSignal^[3] (resume (initState 2) 0)).frames = 3 / 2 ∧
     ((refreshSignal^[3 + 1] (resume (initState 2) 0)).frames
        = (refreshSignal^[3] (resume (initState 2) 0)).frames + 1
      ↔ 2 ∣ (3 + 1)) ∧
     (refreshSignal^[3 + 2] (resume (initState 2) 0)).frames
       = (refreshSignal^[3] (resume (initState 2) 0)).frames + 1) :=
  ⟨by decide, c4_vsync_frame_gating 2 3 (by decide)⟩

end Engine
